import Mathlib

/-!
Verification of the sampling-and-estimation pipeline of
`src/naima.py` (laptop power-consumption / carbon-footprint monitor).

The Python source is shallowly embedded: Python floats are modelled as
rationals (`ℚ`), `None` as `Option.none`, and SQLite rows as a `Sample`
structure.  Timestamps (both `time.time()` floats and ISO-8601
`datetime` strings, whose lexicographic order agrees with chronological
order for the fixed format used) are modelled as rationals.
-/

namespace Naima

/-! ### Configuration constants (src/naima.py lines 32-41) -/

def SAMPLE_INTERVAL_SECONDS : ℚ := 2

def BATTERY_WH_CAPACITY : ℚ := 50

def DEFAULT_BRIGHTNESS : ℚ := 60

def CPU_POWER_COEFF : ℚ := 1/4

def BRIGHTNESS_POWER_COEFF : ℚ := 2/25

def BASE_POWER_W : ℚ := 8

def COST_PER_KWH_BDT : ℚ := 8

def CO2_PER_KWH_KG : ℚ := 7/10

/-- The battery object returned by `psutil.sensors_battery()` (the two
fields the program reads). `None` from psutil is modelled as
`Option Battery = none`. -/
structure Battery where
  percent : ℚ
  power_plugged : Bool
deriving DecidableEq

/-- Python's numeric `x or 0`: `0` is falsy, every other number truthy.
Numerically the identity on `ℚ`, kept explicit for faithfulness. -/
def orQ (x : ℚ) : ℚ := if x = 0 then 0 else x

/-- Python truthiness of an optional float (`if last_ts and ...`):
`None` and `0.0` are falsy. -/
def truthyOptQ (x : Option ℚ) : Bool :=
  match x with
  | none => false
  | some v => decide (v ≠ 0)

/-- The linear power model of `estimate_power` (src/naima.py line 84):
`BASE_POWER_W + CPU_POWER_COEFF * cpu_util + BRIGHTNESS_POWER_COEFF * (brightness or 0)`. -/
def power_linear (cpu_util brightness : ℚ) : ℚ :=
  BASE_POWER_W + CPU_POWER_COEFF * cpu_util + BRIGHTNESS_POWER_COEFF * orQ brightness

/-- `estimate_power` from src/naima.py lines 80-96.  `now` stands for the
`time.time()` call made at the top of the function.  The battery-based
estimate is computed only when a battery is present, it is not plugged
in, both pieces of previous state exist, the percent strictly dropped,
and the elapsed time `dt_h` is strictly positive; the function returns
it whenever it was computed, and the linear model otherwise. -/
def estimate_power (cpu_util brightness : ℚ) (batt : Option Battery)
    (last_batt_percent last_ts : Option ℚ) (now : ℚ) : ℚ :=
  let battery_based_power : Option ℚ :=
    match batt with
    | some b =>
      if b.power_plugged = false then
        match last_batt_percent, last_ts with
        | some lbp, some lts =>
          if b.percent < lbp then
            let dt_h := (now - lts) / 3600
            if 0 < dt_h then
              let d_percent := lbp - b.percent
              let energy_used_Wh := BATTERY_WH_CAPACITY * (d_percent / 100)
              some (energy_used_Wh / dt_h)
            else none
          else none
        | _, _ => none
      else none
    | none => none
  match battery_based_power with
  | some p => p
  | none => power_linear cpu_util brightness

/-- The condition under which `estimate_power` computes (and hence
returns) the battery-discharge-based estimate: battery present, not
plugged, previous percent and previous timestamp exist, current percent
strictly below the previous one, and `dt_h = (now - last_ts)/3600`
strictly positive. -/
def battery_model_selected (batt : Option Battery)
    (last_batt_percent last_ts : Option ℚ) (now : ℚ) : Bool :=
  match batt, last_batt_percent, last_ts with
  | some b, some lbp, some lts =>
    !b.power_plugged && decide (b.percent < lbp) && decide (0 < (now - lts) / 3600)
  | _, _, _ => false

/-- The battery-discharge-based power value computed on the selected
path of `estimate_power` (src/naima.py lines 90-94):
`BATTERY_WH_CAPACITY * (d_percent/100) / dt_h`. -/
def battery_model_power (batt : Option Battery)
    (last_batt_percent last_ts : Option ℚ) (now : ℚ) : ℚ :=
  BATTERY_WH_CAPACITY *
      ((last_batt_percent.getD 0 - (batt.map Battery.percent).getD 0) / 100) /
    ((now - last_ts.getD 0) / 3600)

/-- Shared helper: `estimate_power` returns the battery-based value
exactly when `battery_model_selected`, and the linear model otherwise. -/
theorem estimate_power_select (cpu_util brightness : ℚ) (batt : Option Battery)
    (last_batt_percent last_ts : Option ℚ) (now : ℚ) :
    estimate_power cpu_util brightness batt last_batt_percent last_ts now =
      if battery_model_selected batt last_batt_percent last_ts now
      then battery_model_power batt last_batt_percent last_ts now
      else power_linear cpu_util brightness := by
  rcases batt with _ | b
  · simp [estimate_power, battery_model_selected]
  rcases last_batt_percent with _ | lbp <;> rcases last_ts with _ | lts <;>
    cases hb : b.power_plugged <;>
      simp [estimate_power, battery_model_selected, battery_model_power, hb]
  all_goals split_ifs <;> simp_all

/-- C1: The power estimator returns the battery-discharge-based estimate
if and only if a battery is present, it is not plugged in, a previous
battery percent and previous timestamp exist, the current percent is
strictly below the previous one, and `dt_h = (now - last_ts)/3600 > 0`;
in every other case it returns the linear-model estimate. -/
theorem estimate_power_battery_iff (cpu_util brightness : ℚ) (batt : Option Battery)
    (last_batt_percent last_ts : Option ℚ) (now : ℚ) :
    estimate_power cpu_util brightness batt last_batt_percent last_ts now =
      if battery_model_selected batt last_batt_percent last_ts now
      then battery_model_power batt last_batt_percent last_ts now
      else power_linear cpu_util brightness :=
  estimate_power_select cpu_util brightness batt last_batt_percent last_ts now

theorem orQ_eq (x : ℚ) : orQ x = x := by
  unfold orQ
  split_ifs with h
  · exact h.symm
  · rfl

/-- C3: For `cpu_util ≥ 0` and `brightness ≥ 0`, the linear-model power
estimate is at least `BASE_POWER_W` (8.0 W). -/
theorem power_linear_ge_base (cpu_util brightness : ℚ)
    (hc : 0 ≤ cpu_util) (hb : 0 ≤ brightness) :
    BASE_POWER_W ≤ power_linear cpu_util brightness := by
  unfold power_linear
  rw [orQ_eq]
  unfold BASE_POWER_W CPU_POWER_COEFF BRIGHTNESS_POWER_COEFF
  nlinarith

/-- Witness for C3 at the spec's worked example `cpu = 40`, `brightness = 60`. -/
theorem power_linear_ge_base_witness :
    0 ≤ (40 : ℚ) ∧ 0 ≤ (60 : ℚ) ∧ BASE_POWER_W ≤ power_linear 40 60 :=
  ⟨by norm_num, by norm_num, power_linear_ge_base 40 60 (by norm_num) (by norm_num)⟩

/-- Shared helper: a selected battery-based estimate is strictly positive
(the guards force a strictly positive percent drop over a strictly
positive elapsed time). -/
theorem battery_model_power_pos (batt : Option Battery)
    (last_batt_percent last_ts : Option ℚ) (now : ℚ)
    (hsel : battery_model_selected batt last_batt_percent last_ts now = true) :
    0 < battery_model_power batt last_batt_percent last_ts now := by
  rcases batt with _ | b
  · exact absurd hsel (by simp [battery_model_selected])
  rcases last_batt_percent with _ | lbp
  · exact absurd hsel (by simp [battery_model_selected])
  rcases last_ts with _ | lts
  · exact absurd hsel (by simp [battery_model_selected])
  simp only [battery_model_selected, Bool.and_eq_true, Bool.not_eq_true',
    decide_eq_true_eq] at hsel
  obtain ⟨⟨_, hlt⟩, hdt⟩ := hsel
  unfold battery_model_power BATTERY_WH_CAPACITY
  simp only [Option.getD_some, Option.map_some']
  have h1 : (0:ℚ) < lbp - b.percent := by linarith
  have h2 : (0:ℚ) < 50 * ((lbp - b.percent) / 100) :=
    mul_pos (by norm_num) (div_pos h1 (by norm_num))
  exact div_pos h2 hdt

/-- Shared helper: for non-negative cpu and brightness readings the
estimator always returns a non-negative power. -/
theorem estimate_power_nonneg (cpu_util brightness : ℚ) (batt : Option Battery)
    (last_batt_percent last_ts : Option ℚ) (now : ℚ)
    (hc : 0 ≤ cpu_util) (hb : 0 ≤ brightness) :
    0 ≤ estimate_power cpu_util brightness batt last_batt_percent last_ts now := by
  rw [estimate_power_select]
  split_ifs with h
  · exact (battery_model_power_pos batt last_batt_percent last_ts now h).le
  · unfold power_linear
    rw [orQ_eq]
    unfold BASE_POWER_W CPU_POWER_COEFF BRIGHTNESS_POWER_COEFF
    nlinarith

/-! ### Collector loop (src/naima.py lines 102-137) -/

/-- The in-memory state carried across collector-loop iterations
(`last_ts`, `last_batt_percent`, `energy_cum_Wh`; lines 107-109). -/
structure CollectorState where
  last_ts : Option ℚ
  last_batt_percent : Option ℚ
  energy_cum_Wh : ℚ
deriving DecidableEq

/-- One row of the `samples` table (the DB schema allows NULL in the
REAL columns; the surrogate `id` is represented by list position). -/
structure Sample where
  timestamp : ℚ
  cpu_util : Option ℚ
  brightness : Option ℚ
  battery_percent : Option ℚ
  is_plugged : ℤ
  power_W : Option ℚ
  energy_Wh_cum : Option ℚ
deriving DecidableEq

/-- The body of `collector_thread`'s while-loop (src/naima.py lines
111-137), minus the store write: read sensors, estimate power, integrate
energy, build the row to insert, update the carried state.  `now_dt` is
the `datetime.now()` string of line 113 (modelled as a rational),
`now_est` the `time.time()` taken inside `estimate_power`, and `now_ts`
the `time.time()` of line 123.  The energy update is guarded by Python
truthiness: `if last_ts and power_W`. -/
def collector_step (st : CollectorState) (cpu_util : ℚ) (batt : Option Battery)
    (brightness : ℚ) (now_dt now_est now_ts : ℚ) : Sample × CollectorState :=
  let batt_percent : Option ℚ := batt.map Battery.percent
  let is_plugged : ℤ :=
    match batt with
    | some b => if b.power_plugged then 1 else 0
    | none => 0
  let power_W := estimate_power cpu_util brightness batt st.last_batt_percent st.last_ts now_est
  let energy_cum_Wh : ℚ :=
    if truthyOptQ st.last_ts && decide (power_W ≠ 0) then
      st.energy_cum_Wh + power_W * ((now_ts - st.last_ts.getD 0) / 3600)
    else st.energy_cum_Wh
  let sample : Sample :=
    { timestamp := now_dt, cpu_util := some cpu_util, brightness := some brightness,
      battery_percent := batt_percent, is_plugged := is_plugged,
      power_W := some power_W, energy_Wh_cum := some energy_cum_Wh }
  (sample, { last_ts := some now_ts, last_batt_percent := batt_percent,
             energy_cum_Wh := energy_cum_Wh })

/-- The full collector-loop iteration including the store write
(src/naima.py lines 111-137).  The INSERT and commit at lines 128-134
are not wrapped in any try/except, so an error raised by the write
propagates out of the loop body and terminates the collector thread;
`write_ok` models whether the SQLite write succeeds, and a failing write
ends the iteration in `Except.error` with no continuation of the loop. -/
def collector_iter (st : CollectorState) (cpu_util : ℚ) (batt : Option Battery)
    (brightness : ℚ) (now_dt now_est now_ts : ℚ) (write_ok : Bool) :
    Except Unit (Sample × CollectorState) :=
  let r := collector_step st cpu_util batt brightness now_dt now_est now_ts
  if write_ok then Except.ok r else Except.error ()

/-- Shared helper: one collector iteration never decreases the carried
cumulative energy, given non-negative sensor readings and wall-clock
time not earlier than the carried previous timestamp. -/
theorem collector_step_energy_mono (st : CollectorState) (cpu_util : ℚ)
    (batt : Option Battery) (brightness nd ne nt : ℚ)
    (hc : 0 ≤ cpu_util) (hb : 0 ≤ brightness)
    (hts : ∀ t, st.last_ts = some t → t ≤ nt) :
    st.energy_cum_Wh ≤
      (collector_step st cpu_util batt brightness nd ne nt).2.energy_cum_Wh := by
  simp only [collector_step]
  split_ifs with h
  · cases hlt : st.last_ts with
    | none => rw [hlt] at h; simp [truthyOptQ] at h
    | some t =>
      have htn := hts t hlt
      have hp := estimate_power_nonneg cpu_util brightness batt
        st.last_batt_percent (some t) ne hc hb
      have hdt : (0:ℚ) ≤ (nt - t) / 3600 :=
        div_nonneg (by linarith) (by norm_num)
      simp only [Option.getD_some]
      nlinarith
  · exact le_refl _

/-- C2: Within one run, the written cumulative energy is non-decreasing
across consecutive iterations: with non-negative cpu and brightness
readings at the second iteration and wall-clock time not going
backwards, the `energy_Wh_cum` written by iteration i+1 is at least the
one written by iteration i. -/
theorem energy_cum_nondecreasing (st : CollectorState)
    (cpu1 : ℚ) (batt1 : Option Battery) (br1 nd1 ne1 nt1 : ℚ)
    (cpu2 : ℚ) (batt2 : Option Battery) (br2 nd2 ne2 nt2 : ℚ)
    (hc : 0 ≤ cpu2) (hb : 0 ≤ br2) (ht : nt1 ≤ nt2) :
    ((collector_step st cpu1 batt1 br1 nd1 ne1 nt1).1.energy_Wh_cum).getD 0 ≤
      ((collector_step (collector_step st cpu1 batt1 br1 nd1 ne1 nt1).2
          cpu2 batt2 br2 nd2 ne2 nt2).1.energy_Wh_cum).getD 0 := by
  have h1 : (collector_step st cpu1 batt1 br1 nd1 ne1 nt1).1.energy_Wh_cum =
      some (collector_step st cpu1 batt1 br1 nd1 ne1 nt1).2.energy_cum_Wh := rfl
  have h2 : (collector_step (collector_step st cpu1 batt1 br1 nd1 ne1 nt1).2
        cpu2 batt2 br2 nd2 ne2 nt2).1.energy_Wh_cum =
      some (collector_step (collector_step st cpu1 batt1 br1 nd1 ne1 nt1).2
        cpu2 batt2 br2 nd2 ne2 nt2).2.energy_cum_Wh := rfl
  have hlast : (collector_step st cpu1 batt1 br1 nd1 ne1 nt1).2.last_ts = some nt1 := rfl
  rw [h1, h2, Option.getD_some, Option.getD_some]
  apply collector_step_energy_mono _ cpu2 batt2 br2 nd2 ne2 nt2 hc hb
  intro t htt
  rw [hlast] at htt
  cases htt
  exact ht

/-- Witness for C2 at concrete inputs. -/
theorem energy_cum_nondecreasing_witness :
    0 ≤ (10 : ℚ) ∧ 0 ≤ (60 : ℚ) ∧ (1 : ℚ) ≤ 3 ∧
      ((collector_step ⟨none, none, 0⟩ 10 none 60 0 1 1).1.energy_Wh_cum).getD 0 ≤
        ((collector_step (collector_step ⟨none, none, 0⟩ 10 none 60 0 1 1).2
            10 none 60 2 3 3).1.energy_Wh_cum).getD 0 :=
  ⟨by norm_num, by norm_num, by norm_num,
    energy_cum_nondecreasing ⟨none, none, 0⟩ 10 none 60 0 1 1 10 none 60 2 3 3
      (by norm_num) (by norm_num) (by norm_num)⟩

/-- C7: the storage write is not protected by any exception handler:
with a failing write the iteration yields an error and the collector
loop terminates instead of logging and continuing, shown here at a
concrete iteration. -/
theorem collector_iter_write_failure_terminates :
    collector_iter ⟨none, none, 0⟩ 10 none 60 0 1 1 false = Except.error () := by
  rfl

/-! ### Queries and summary (src/naima.py lines 143-166 and 176-227) -/

/-- Python's `round` (round-half-to-even) on a rational, as an integer. -/
def pyRound (x : ℚ) : ℤ :=
  let f := x - (⌊x⌋ : ℚ)
  if f < 1/2 then ⌊x⌋
  else if 1/2 < f then ⌊x⌋ + 1
  else if ⌊x⌋ % 2 = 0 then ⌊x⌋ else ⌊x⌋ + 1

/-- Python's `round(x, n)` to `n` decimal places. -/
def pyRoundDec (n : ℕ) (x : ℚ) : ℚ := (pyRound (x * 10 ^ n) : ℚ) / 10 ^ n

/-- Python's `r or 0` on a nullable float read from the DB: `None` and
`0.0` both give `0`; any other number gives itself. -/
def optOrZero (x : Option ℚ) : ℚ :=
  match x with
  | none => 0
  | some v => orQ v

/-- `fetch_samples` from src/naima.py lines 143-166.  `mode = "live"`
selects rows of the live store whose timestamp is at or after
`now - minutes` minutes, ordered by timestamp (the SQL `ORDER BY` on
ISO strings, whose lexicographic order is chronological order); any
other mode returns the whole sim store ordered by the auto-increment
row id, i.e. in insertion order, without looking at `minutes`. -/
def fetch_samples (mode : String) (minutes : ℚ) (now : ℚ)
    (liveDb simDb : List Sample) : List Sample :=
  if mode = "live" then
    let since := now - minutes * 60
    (liveDb.filter fun r => decide (since ≤ r.timestamp)).mergeSort
      fun a b => decide (a.timestamp ≤ b.timestamp)
  else simDb

/-- One element of the `/api/data` response (src/naima.py lines 183-193):
a 1-based index plus the row's fields, the timestamp dropped. -/
structure DataPoint where
  index : ℕ
  cpu_util : Option ℚ
  brightness : Option ℚ
  battery_percent : Option ℚ
  is_plugged : ℤ
  power_W : Option ℚ
  energy_Wh_cum : Option ℚ
deriving DecidableEq

/-- The `/api/data` handler body after `fetch_samples` (src/naima.py
lines 182-195). -/
def api_data (rows : List Sample) : List DataPoint :=
  rows.enum.map fun p =>
    { index := p.1 + 1, cpu_util := p.2.cpu_util, brightness := p.2.brightness,
      battery_percent := p.2.battery_percent, is_plugged := p.2.is_plugged,
      power_W := p.2.power_W, energy_Wh_cum := p.2.energy_Wh_cum }

/-- The `/api/summary` response object. -/
structure SummaryResult where
  energy_Wh : ℚ
  avg_power_W : ℚ
  avg_cpu : ℚ
  co2_kg : ℚ
deriving DecidableEq

/-- The `/api/summary` handler body after `fetch_samples` (src/naima.py
lines 203-227): all-zero on an empty window; otherwise energy is
`energies[-1] - energies[0]` for more than one row and `energies[-1]`
for a single row, averages are arithmetic means with NULLs read as 0,
and CO2 is `energy/1000 * CO2_PER_KWH_KG`, everything rounded as in the
source (energy and power to 2 decimals, cpu to 1, CO2 to 3). -/
def api_summary (rows : List Sample) : SummaryResult :=
  if rows.isEmpty then
    { energy_Wh := 0, avg_power_W := 0, avg_cpu := 0, co2_kg := 0 }
  else
    let powers := rows.map fun r => optOrZero r.power_W
    let cpus := rows.map fun r => optOrZero r.cpu_util
    let energies := rows.map fun r => optOrZero r.energy_Wh_cum
    let energy_Wh :=
      if 1 < energies.length then energies.getLast?.getD 0 - energies.head?.getD 0
      else energies.getLast?.getD 0
    let avg_power := powers.sum / (powers.length : ℚ)
    let avg_cpu := cpus.sum / (cpus.length : ℚ)
    let energy_kWh := energy_Wh / 1000
    let co2 := energy_kWh * CO2_PER_KWH_KG
    { energy_Wh := pyRoundDec 2 energy_Wh, avg_power_W := pyRoundDec 2 avg_power,
      avg_cpu := pyRoundDec 1 avg_cpu, co2_kg := pyRoundDec 3 co2 }

/-- C4: the summary of an empty window is the all-zero object, and the
data listing of an empty window is the empty sequence, not an error. -/
theorem summary_empty_window :
    api_summary [] = { energy_Wh := 0, avg_power_W := 0, avg_cpu := 0, co2_kg := 0 } ∧
      api_data [] = [] :=
  ⟨rfl, rfl⟩

/-- C5: on a non-empty window the summary's energy is the last row's
cumulative energy minus the first row's when there is more than one row,
and the single row's cumulative energy itself (not a zero delta) when
there is exactly one, rounded to 2 decimals as in the source. -/
theorem summary_energy_delta (rows : List Sample) (h : rows ≠ []) :
    (api_summary rows).energy_Wh =
      if 1 < rows.length then
        pyRoundDec 2 (optOrZero ((rows.getLast h).energy_Wh_cum) -
          optOrZero ((rows.head h).energy_Wh_cum))
      else pyRoundDec 2 (optOrZero ((rows.head h).energy_Wh_cum)) := by
  unfold api_summary
  rw [if_neg (by simpa using h)]
  simp only [List.length_map, List.getLast?_map, List.head?_map,
    List.getLast?_eq_getLast rows h, List.head?_eq_head h, Option.map_some',
    Option.getD_some]
  split_ifs with h1
  · rfl
  · have h2 : rows.length = 1 := by
      cases hl : rows.length with
      | zero => exact absurd (List.length_eq_zero.mp hl) h
      | succ n => omega
    obtain ⟨a, ha⟩ := List.length_eq_one.mp h2
    subst ha
    rfl

/-- Witness for C5: a single-row window reports that row's absolute
cumulative energy. -/
theorem summary_energy_delta_witness :
    (api_summary
        [{ timestamp := 0, cpu_util := some 10, brightness := some 60,
           battery_percent := none, is_plugged := 0, power_W := some 20,
           energy_Wh_cum := some 42 }]).energy_Wh = 42 := by
  rw [summary_energy_delta _ (by simp)]
  norm_num [pyRoundDec, pyRound, optOrZero, orQ]

/-- C6: on a window whose cumulative energies are [100, 150, 230] Wh
(with concrete power readings 20/21/25 W and cpu readings 40/50/61 %),
the summary reports `energy_Wh = 130`, `co2_kg = 0.091`, and the
averages rounded to the source's display precision. -/
theorem summary_worked_example :
    api_summary
        [{ timestamp := 0, cpu_util := some 40, brightness := some 60,
           battery_percent := none, is_plugged := 0, power_W := some 20,
           energy_Wh_cum := some 100 },
         { timestamp := 60, cpu_util := some 50, brightness := some 60,
           battery_percent := none, is_plugged := 0, power_W := some 21,
           energy_Wh_cum := some 150 },
         { timestamp := 120, cpu_util := some 61, brightness := some 60,
           battery_percent := none, is_plugged := 0, power_W := some 25,
           energy_Wh_cum := some 230 }] =
      { energy_Wh := 130, avg_power_W := 22, avg_cpu := 503/10, co2_kg := 91/1000 } := by
  norm_num [api_summary, optOrZero, orQ, pyRoundDec, pyRound, CO2_PER_KWH_KG,
    SummaryResult.mk.injEq]

/-- C10: the summary's energy and CO2 are not guaranteed non-negative:
on a two-row window whose cumulative energy drops from 100 to 0 (as
after a collector restart) both come out strictly negative. -/
theorem summary_energy_can_be_negative :
    (api_summary
        [{ timestamp := 0, cpu_util := some 10, brightness := some 60,
           battery_percent := none, is_plugged := 0, power_W := some 20,
           energy_Wh_cum := some 100 },
         { timestamp := 2, cpu_util := some 10, brightness := some 60,
           battery_percent := none, is_plugged := 0, power_W := some 20,
           energy_Wh_cum := some 0 }]).energy_Wh < 0 ∧
      (api_summary
        [{ timestamp := 0, cpu_util := some 10, brightness := some 60,
           battery_percent := none, is_plugged := 0, power_W := some 20,
           energy_Wh_cum := some 100 },
         { timestamp := 2, cpu_util := some 10, brightness := some 60,
           battery_percent := none, is_plugged := 0, power_W := some 20,
           energy_Wh_cum := some 0 }]).co2_kg < 0 := by
  norm_num [api_summary, optOrZero, orQ, pyRoundDec, pyRound, CO2_PER_KWH_KG]

/-- C8: for any mode other than "live" the fetch ignores `minutes` and
returns the whole sim store in insertion order; for mode "live" it
returns exactly the live rows with timestamp at or after `now` minus
`minutes` minutes, in ascending timestamp order. -/
theorem fetch_samples_modes (mode : String) (minutes now : ℚ)
    (liveDb simDb : List Sample) :
    (mode ≠ "live" → fetch_samples mode minutes now liveDb simDb = simDb) ∧
    (mode = "live" →
      (∀ s ∈ fetch_samples mode minutes now liveDb simDb,
          now - minutes * 60 ≤ s.timestamp) ∧
      (fetch_samples mode minutes now liveDb simDb).Pairwise
        (fun a b => a.timestamp ≤ b.timestamp) ∧
      List.Perm (fetch_samples mode minutes now liveDb simDb)
        (liveDb.filter fun r => decide (now - minutes * 60 ≤ r.timestamp))) := by
  constructor
  · intro hm
    simp [fetch_samples, hm]
  · intro hm
    subst hm
    have hfe : fetch_samples "live" minutes now liveDb simDb =
        (liveDb.filter fun r => decide (now - minutes * 60 ≤ r.timestamp)).mergeSort
          fun a b => decide (a.timestamp ≤ b.timestamp) := by
      simp [fetch_samples]
    rw [hfe]
    refine ⟨?_, ?_, List.mergeSort_perm _ _⟩
    · intro s hs
      rw [List.mem_mergeSort, List.mem_filter] at hs
      exact of_decide_eq_true hs.2
    · have hp := @List.sorted_mergeSort Sample
        (fun a b => decide (a.timestamp ≤ b.timestamp))
        (fun a b c hab hbc => decide_eq_true
          (le_trans (of_decide_eq_true hab) (of_decide_eq_true hbc)))
        (fun a b => by
          rcases le_total a.timestamp b.timestamp with hab | hba
          · simp [hab]
          · simp [hba])
        (liveDb.filter fun r => decide (now - minutes * 60 ≤ r.timestamp))
      exact hp.imp fun hab => of_decide_eq_true hab

/-- Witness for C8 at a concrete non-"live" mode and a concrete store. -/
theorem fetch_samples_modes_witness :
    fetch_samples "sim" 5 1000 []
        [{ timestamp := 0, cpu_util := none, brightness := none,
           battery_percent := none, is_plugged := 0, power_W := none,
           energy_Wh_cum := none }] =
      [{ timestamp := 0, cpu_util := none, brightness := none,
         battery_percent := none, is_plugged := 0, power_W := none,
         energy_Wh_cum := none }] :=
  (fetch_samples_modes "sim" 5 1000 []
      [{ timestamp := 0, cpu_util := none, brightness := none,
         battery_percent := none, is_plugged := 0, power_W := none,
         energy_Wh_cum := none }]).1 (by decide)

/-- C9: in an iteration where the battery sensor reports no battery, the
persisted row has `is_plugged = 0` (not NULL) and `battery_percent`
NULL, and an unplugged device with a battery also records
`is_plugged = 0`, making the two indistinguishable in that field. -/
theorem no_battery_records_plugged_zero (st : CollectorState)
    (cpu_util brightness nd ne nt p : ℚ) :
    (collector_step st cpu_util none brightness nd ne nt).1.is_plugged = 0 ∧
      (collector_step st cpu_util none brightness nd ne nt).1.battery_percent = none ∧
      (collector_step st cpu_util (some ⟨p, false⟩) brightness nd ne nt).1.is_plugged = 0 := by
  refine ⟨rfl, rfl, rfl⟩

end Naima
